import Mathlib

/-!
Shallow embedding of the RAG knowledge-base proxy route handlers
(GET / POST / DELETE of the `api/rag` route) and proofs about them.

JavaScript strings are modelled as lists of characters (`Str`), so that
`startsWith`, `slice`, `split` and concatenation become the corresponding
list operations.  The remote Lyzr service is modelled by passing its
response for each outbound call as an explicit argument; the outbound
calls actually issued by a handler are returned as a trace (`List
RemoteCall`) alongside the handler's HTTP response, so that "no remote
call is attempted" and "the train call is issued with body b" are
statable.  `new Date().toISOString()` is modelled by a `now` parameter.
-/

set_option autoImplicit false

/-- Model of a JavaScript string: a list of characters. -/
abbrev Str := List Char

/-- The literal `storage/` used both by the GET transform and the DELETE
normalization. -/
def storageMarker : Str := "storage/".data

/-- JavaScript falsiness of an optional string: `undefined`/`null` and the
empty string are falsy (`!ragId`, `!LYZR_API_KEY`). -/
def falsyStr : Option Str → Bool
  | none => true
  | some s => s.isEmpty

/-- The `ok` field of a fetch `Response`: status in the range 200-299. -/
def statusOk (s : Nat) : Bool := decide (200 ≤ s ∧ s < 300)

/-- JavaScript `String.prototype.split(sep)` for a single-character
separator: splits into (possibly empty) segments, never returns an empty
list. -/
def splitOnChar (c : Char) : Str → List Str
  | [] => [[]]
  | x :: xs =>
    match splitOnChar c xs with
    | [] => [[]]
    | r :: rs => if x = c then [] :: r :: rs else (x :: r) :: rs

/-- JavaScript `String.prototype.toLowerCase`, characterwise. -/
def lowerStr (s : Str) : Str := s.map Char.toLower

/-- The file type union `'pdf' | 'docx' | 'txt'` of the route file. -/
inductive FileType where
  | pdf
  | docx
  | txt
deriving DecidableEq, Repr

/-- A listed document as built by the GET transform:
`{ fileName, fileType, status }`. -/
structure RAGDocument where
  fileName : Str
  fileType : FileType
  status : Str
deriving DecidableEq, Repr

/-- The `FILE_TYPE_CONFIG` table: supported MIME type to
`{ type, parser }`. -/
def FILE_TYPE_CONFIG (mime : Str) : Option (FileType × Str) :=
  if mime = "application/pdf".data then some (FileType.pdf, "pypdf".data)
  else if mime = "application/vnd.openxmlformats-officedocument.wordprocessingml.document".data then
    some (FileType.docx, "docx2txt".data)
  else if mime = "text/plain".data then some (FileType.txt, "txt_parser".data)
  else none

/-- GET transform, step 1: remove the `storage/` marker if present
(`docPath.startsWith('storage/') ? docPath.slice(8) : docPath`). -/
def stripStorage (docPath : Str) : Str :=
  if storageMarker.isPrefixOf docPath then docPath.drop 8 else docPath

/-- GET transform, step 2: the code's extension computation
`fileName.split('.').pop()?.toLowerCase() || ''`. -/
def extOfName (fileName : Str) : Str :=
  (((splitOnChar '.' fileName).getLast?).map lowerStr).getD []

/-- GET transform, step 3: `'pdf'` gives pdf, `'docx'` gives docx,
anything else gives txt. -/
def fileTypeOfExt (e : Str) : FileType :=
  if e = "pdf".data then FileType.pdf
  else if e = "docx".data then FileType.docx
  else FileType.txt

/-- The GET per-path transform: strip the marker, derive the type from the
computed extension, stamp `status = 'active'`. -/
def transformDoc (docPath : Str) : RAGDocument :=
  let fileName := stripStorage docPath
  { fileName := fileName
    fileType := fileTypeOfExt (extOfName fileName)
    status := "active".data }

/-- DELETE normalization of one document name: prepend `storage/` unless
already present. -/
def formatDocName (doc : Str) : Str :=
  if storageMarker.isPrefixOf doc then doc else storageMarker ++ doc

/-- An outbound call to the remote Lyzr service, with the data the route
puts in it that matters to the claims. -/
inductive RemoteCall where
  | listDocs (ragId : Str)
  | parse (fileName : Str) (fileType : FileType) (dataParser : Str)
      (chunkParams : Option (Nat × Nat))
  | train (ragId : Str) (body : List Str)
  | deleteDocs (ragId : Str) (body : List Str)
deriving DecidableEq, Repr

/-- A JSON body returned by `NextResponse.json` in the route, with one
optional field per key the route ever writes; absent keys are `none`. -/
structure ApiResponse where
  status : Nat
  success : Bool
  error : Option Str := none
  details : Option Str := none
  documents : Option (List RAGDocument) := none
  ragId : Option Str := none
  timestamp : Option Str := none
  message : Option Str := none
  fileName : Option Str := none
  fileType : Option FileType := none
  documentCount : Option Nat := none
  deletedCount : Option Nat := none
deriving DecidableEq, Repr

/-- The 500 configuration-error response produced by all three handlers
when `LYZR_API_KEY` is missing. -/
def configErrorResp : ApiResponse :=
  { status := 500
    success := false
    error := some "LYZR_API_KEY not configured in .env.local".data }

/-- JSON body of the remote listing response: an array of paths, or any
non-array value. -/
inductive ListBody where
  | arr (paths : List Str)
  | notArr
deriving DecidableEq, Repr

/-- The remote response to the document-listing call. -/
structure ListRemote where
  status : Nat
  statusText : Str
  errorText : Str
  body : ListBody
deriving DecidableEq, Repr

/-- The remote response to the parse call; `documents` is `some chunks`
when the JSON body has a truthy array field `documents`, else `none`. -/
structure ParseRemote where
  status : Nat
  statusText : Str
  errorText : Str
  documents : Option (List Str)
deriving DecidableEq, Repr

/-- The remote response to the train call. -/
structure TrainRemote where
  status : Nat
  statusText : Str
  errorText : Str
deriving DecidableEq, Repr

/-- The remote response to the delete call. -/
structure DeleteRemote where
  status : Nat
  statusText : Str
  errorText : Str
deriving DecidableEq, Repr

/-- The uploaded `File` of the POST handler: its `name` and declared MIME
`type`. -/
structure UploadFile where
  name : Str
  type : Str
deriving DecidableEq, Repr

/-- GET `/api/rag?ragId=...`: list documents.  Returns the JSON response
together with the trace of outbound calls issued. -/
def GET (apiKey ragId : Option Str) (remote : ListRemote) (now : Str) :
    ApiResponse × List RemoteCall :=
  if falsyStr apiKey then (configErrorResp, [])
  else if falsyStr ragId then
    ({ status := 400
       success := false
       error := some "ragId is required as a query parameter".data }, [])
  else
    let rid := ragId.getD []
    let calls := [RemoteCall.listDocs rid]
    if statusOk remote.status = false then
      if remote.status = 404 then
        ({ status := 200, success := true, documents := some [] }, calls)
      else
        ({ status := remote.status
           success := false
           error := some ("Failed to fetch documents: ".data ++ remote.statusText)
           details := some remote.errorText }, calls)
    else
      let docs :=
        match remote.body with
        | ListBody.arr paths => paths.map transformDoc
        | ListBody.notArr => []
      ({ status := 200
         success := true
         documents := some docs
         ragId := some rid
         timestamp := some now }, calls)

/-- POST continuation after the parse call was issued: validate the parse
response, issue the train call, build the final response.  The returned
trace holds the calls issued after the parse call. -/
def postAfterParse (rid : Str) (f : UploadFile) (t : FileType)
    (parseRemote : ParseRemote) (trainRemote : TrainRemote) (now : Str) :
    ApiResponse × List RemoteCall :=
  if statusOk parseRemote.status = false then
    ({ status := 500
       success := false
       error := some ("Document parsing failed: ".data ++ parseRemote.statusText)
       details := some parseRemote.errorText }, [])
  else
    match parseRemote.documents with
    | none =>
      ({ status := 500
         success := false
         error := some "Invalid response format from document parsing".data }, [])
    | some docs =>
      let calls := [RemoteCall.train rid docs]
      if statusOk trainRemote.status = false then
        ({ status := 500
           success := false
           error := some ("Knowledge base training failed: ".data ++ trainRemote.statusText)
           details := some trainRemote.errorText }, calls)
      else
        ({ status := 200
           success := true
           message := some "Document uploaded and trained successfully".data
           fileName := some f.name
           fileType := some t
           documentCount := some docs.length
           ragId := some rid
           timestamp := some now }, calls)

/-- POST `/api/rag`: upload a file, parse it remotely, train the knowledge
base with the parsed chunks.  Returns the JSON response together with the
trace of outbound calls issued. -/
def POST (apiKey : Option Str) (file : Option UploadFile) (ragId : Option Str)
    (parseRemote : ParseRemote) (trainRemote : TrainRemote) (now : Str) :
    ApiResponse × List RemoteCall :=
  if falsyStr apiKey then (configErrorResp, [])
  else
    match file with
    | none =>
      ({ status := 400, success := false, error := some "file is required".data }, [])
    | some f =>
      if falsyStr ragId then
        ({ status := 400, success := false, error := some "ragId is required".data }, [])
      else
        match FILE_TYPE_CONFIG f.type with
        | none =>
          ({ status := 400
             success := false
             error := some ("Unsupported file type: ".data ++ f.type ++
               ". Only PDF, DOCX, and TXT files are supported.".data) }, [])
        | some (t, parserStr) =>
          let rid := ragId.getD []
          let chunkParams : Option (Nat × Nat) :=
            if t = FileType.pdf then some (1000, 100) else none
          let parseCall := RemoteCall.parse f.name t parserStr chunkParams
          let rest := postAfterParse rid f t parseRemote trainRemote now
          (rest.1, parseCall :: rest.2)

/-- DELETE `/api/rag`: delete the given documents from the knowledge base.
`documents = none` models an absent or non-array field.  Returns the JSON
response together with the trace of outbound calls issued. -/
def DELETE (apiKey ragId : Option Str) (documents : Option (List Str))
    (remote : DeleteRemote) (now : Str) : ApiResponse × List RemoteCall :=
  if falsyStr apiKey then (configErrorResp, [])
  else if falsyStr ragId then
    ({ status := 400, success := false, error := some "ragId is required".data }, [])
  else
    match documents with
    | none =>
      ({ status := 400
         success := false
         error := some "documents array is required and must not be empty".data }, [])
    | some docs =>
      if docs.isEmpty then
        ({ status := 400
           success := false
           error := some "documents array is required and must not be empty".data }, [])
      else
        let rid := ragId.getD []
        let formatted := docs.map formatDocName
        let calls := [RemoteCall.deleteDocs rid formatted]
        if statusOk remote.status = false then
          ({ status := remote.status
             success := false
             error := some ("Failed to delete documents: ".data ++ remote.statusText)
             details := some remote.errorText }, calls)
        else
          ({ status := 200
             success := true
             message := some "Documents deleted successfully".data
             deletedCount := some docs.length
             ragId := some rid
             timestamp := some now }, calls)

/-- Formalization of the claimed fileType rule, for comparison with the
code: a remaining name that contains no dot has no extension, so the
claimed rule maps it to txt; a name with a dot takes its extension (the
last dot-segment, compared case-insensitively as the code does), with
`pdf` giving pdf, `docx` giving docx, and any other extension giving
txt. -/
def claimedFileTypeOfName (n : Str) : FileType :=
  if n.contains '.' then fileTypeOfExt (extOfName n) else FileType.txt

/-- Splitting on a character that does not occur yields the single
original segment. -/
theorem splitOnChar_of_not_contains (c : Char) (n : Str) (h : n.contains c = false) :
    splitOnChar c n = [n] := by
  induction n with
  | nil => rfl
  | cons x xs ih =>
    have hx : (c == x) = false := by
      by_contra hcx
      simp only [Bool.not_eq_false, beq_iff_eq] at hcx
      simp [List.contains, List.elem_cons, hcx] at h
    have hxs : xs.contains c = false := by
      simp only [List.contains, List.elem_cons, hx] at h
      simpa [List.contains] using h
    have hne : x ≠ c := fun he => by simp [he] at hx
    simp [splitOnChar, ih hxs, hne]

/-- If the name has no dot, the extension the code computes is the whole
name, lowercased. -/
theorem extOfName_of_no_dot (n : Str) (h : n.contains '.' = false) :
    extOfName n = lowerStr n := by
  simp [extOfName, splitOnChar_of_not_contains '.' n h]

/-- C1: the claim's fileType rule ("any other extension or none gives
txt") disagrees with the code on the dotless path `pdf`: the code derives
the extension as the last dot-segment of the name — the whole name when
there is no dot — so `transformDoc "pdf"` gets fileType pdf, while the
claimed rule ("none gives txt") demands txt. -/
theorem C1_counterexample :
    (transformDoc "pdf".data).fileType = FileType.pdf ∧
    claimedFileTypeOfName (stripStorage "pdf".data) = FileType.txt ∧
    (transformDoc "pdf".data).fileType ≠ claimedFileTypeOfName (stripStorage "pdf".data) := by
  decide

/-- C1 (amended): each listed path is transformed by stripping a leading
`storage/` marker, deriving fileType from the lowercased last
dot-segment of the remaining name — which is the whole name, lowercased,
when the name contains no dot — with `pdf` giving pdf, `docx` giving
docx, anything else txt, and stamping status active; on the remote
result `["storage/report.pdf", "notes.txt"]` this yields exactly the
documents of the claim's example. -/
theorem C1_amended :
    (∀ p : Str, transformDoc p =
      { fileName := stripStorage p
        fileType := fileTypeOfExt (extOfName (stripStorage p))
        status := "active".data }) ∧
    (∀ n : Str, n.contains '.' = false → extOfName n = lowerStr n) ∧
    (["storage/report.pdf".data, "notes.txt".data].map transformDoc =
      [{ fileName := "report.pdf".data, fileType := FileType.pdf, status := "active".data },
       { fileName := "notes.txt".data, fileType := FileType.txt, status := "active".data }]) :=
  ⟨fun _ => rfl, extOfName_of_no_dot, by decide⟩

/-- C1 witness: the amended claim instantiated at the dotless name
`notes`. -/
theorem C1_amended_witness :
    ("notes".data.contains '.' = false) ∧ extOfName "notes".data = lowerStr "notes".data :=
  ⟨by decide, C1_amended.2.1 "notes".data (by decide)⟩

/-- C4: a valid List request whose remote listing call answers 404 is
normalized to the success response `{success := true, documents := []}`
(HTTP 200), not an error. -/
theorem C4_list_404_empty (k r : Str) (remote : ListRemote) (now : Str)
    (hk : k.isEmpty = false) (hr : r.isEmpty = false) (h404 : remote.status = 404) :
    GET (some k) (some r) remote now =
      ({ status := 200, success := true, documents := some [] }, [RemoteCall.listDocs r]) := by
  simp [GET, falsyStr, hk, hr, h404, statusOk]

/-- C4 witness: the 404 normalization at a concrete request. -/
theorem C4_witness :
    GET (some "k".data) (some "kb1".data)
        { status := 404, statusText := [], errorText := [], body := ListBody.notArr } [] =
      ({ status := 200, success := true, documents := some [] },
        [RemoteCall.listDocs "kb1".data]) :=
  C4_list_404_empty "k".data "kb1".data
    { status := 404, statusText := [], errorText := [], body := ListBody.notArr } []
    (by decide) (by decide) rfl

/-- The three supported MIME types, in the order of the config table. -/
def supportedTypes : List Str :=
  ["application/pdf".data,
   "application/vnd.openxmlformats-officedocument.wordprocessingml.document".data,
   "text/plain".data]

/-- The fixed parser name the config table assigns to each file type. -/
def parserNameOf : FileType → Str
  | FileType.pdf => "pypdf".data
  | FileType.docx => "docx2txt".data
  | FileType.txt => "txt_parser".data

/-- C2: when the parse call succeeds with a list field `documents`, the
train call is issued with exactly that list as its body, and the success
response's documentCount is that list's length. -/
theorem C2_train_body_and_count (k r : Str) (f : UploadFile) (cfg : FileType × Str)
    (pr : ParseRemote) (tr : TrainRemote) (now : Str) (docs : List Str)
    (hk : k.isEmpty = false) (hr : r.isEmpty = false)
    (hcfg : FILE_TYPE_CONFIG f.type = some cfg)
    (hok : statusOk pr.status = true) (hdocs : pr.documents = some docs) :
    RemoteCall.train r docs ∈ (POST (some k) (some f) (some r) pr tr now).2 ∧
    (statusOk tr.status = true →
      (POST (some k) (some f) (some r) pr tr now).1.documentCount =
        some docs.length) := by
  obtain ⟨t, p⟩ := cfg
  cases hst : statusOk tr.status <;>
    simp [POST, postAfterParse, falsyStr, hk, hr, hcfg, hok, hdocs, hst]

/-- C2 witness: the spec's example — parse returns
`{documents := ["chunk1", "chunk2"]}`, the train body is that list and
documentCount is its length, 2. -/
theorem C2_witness :
    RemoteCall.train "kb1".data ["chunk1".data, "chunk2".data] ∈
      (POST (some "k".data) (some { name := "notes.txt".data, type := "text/plain".data })
        (some "kb1".data)
        { status := 200, statusText := [], errorText := [],
          documents := some ["chunk1".data, "chunk2".data] }
        { status := 200, statusText := [], errorText := [] } []).2 ∧
    (statusOk 200 = true →
      (POST (some "k".data) (some { name := "notes.txt".data, type := "text/plain".data })
        (some "kb1".data)
        { status := 200, statusText := [], errorText := [],
          documents := some ["chunk1".data, "chunk2".data] }
        { status := 200, statusText := [], errorText := [] } []).1.documentCount =
        some (["chunk1".data, "chunk2".data] : List Str).length) :=
  C2_train_body_and_count "k".data "kb1".data
    { name := "notes.txt".data, type := "text/plain".data }
    (FileType.txt, "txt_parser".data)
    { status := 200, statusText := [], errorText := [],
      documents := some ["chunk1".data, "chunk2".data] }
    { status := 200, statusText := [], errorText := [] } []
    ["chunk1".data, "chunk2".data]
    (by decide) (by decide) (by decide) (by decide) rfl

/-- C3: for every file whose MIME type is supported, the parse call is
issued first, carrying the table's parser name for that type, and its
chunking parameters are (1000, 100) exactly when the type is pdf. -/
theorem C3_parser_selection (k r : Str) (f : UploadFile) (pr : ParseRemote)
    (tr : TrainRemote) (now : Str)
    (hk : k.isEmpty = false) (hr : r.isEmpty = false)
    (hm : f.type ∈ supportedTypes) :
    ∃ t, FILE_TYPE_CONFIG f.type = some (t, parserNameOf t) ∧
      (POST (some k) (some f) (some r) pr tr now).2.head? =
        some (RemoteCall.parse f.name t (parserNameOf t)
          (if t = FileType.pdf then some (1000, 100) else none)) := by
  simp only [supportedTypes, List.mem_cons, List.not_mem_nil, or_false] at hm
  rcases hm with h | h | h
  · have hcfg : FILE_TYPE_CONFIG f.type = some (FileType.pdf, parserNameOf FileType.pdf) := by
      rw [h]; decide
    exact ⟨FileType.pdf, hcfg, by simp [POST, falsyStr, hk, hr, hcfg]⟩
  · have hcfg : FILE_TYPE_CONFIG f.type = some (FileType.docx, parserNameOf FileType.docx) := by
      rw [h]; decide
    exact ⟨FileType.docx, hcfg, by simp [POST, falsyStr, hk, hr, hcfg]⟩
  · have hcfg : FILE_TYPE_CONFIG f.type = some (FileType.txt, parserNameOf FileType.txt) := by
      rw [h]; decide
    exact ⟨FileType.txt, hcfg, by simp [POST, falsyStr, hk, hr, hcfg]⟩

/-- C3 witness: parser selection at a concrete PDF upload, where the
chunking parameters are attached. -/
theorem C3_witness :
    ∃ t, FILE_TYPE_CONFIG
        ({ name := "report.pdf".data, type := "application/pdf".data } : UploadFile).type =
        some (t, parserNameOf t) ∧
      (POST (some "k".data)
        (some { name := "report.pdf".data, type := "application/pdf".data })
        (some "kb1".data)
        { status := 200, statusText := [], errorText := [], documents := some [] }
        { status := 200, statusText := [], errorText := [] } []).2.head? =
        some (RemoteCall.parse
          ({ name := "report.pdf".data, type := "application/pdf".data } : UploadFile).name
          t (parserNameOf t)
          (if t = FileType.pdf then some (1000, 100) else none)) :=
  C3_parser_selection "k".data "kb1".data
    { name := "report.pdf".data, type := "application/pdf".data }
    { status := 200, statusText := [], errorText := [], documents := some [] }
    { status := 200, statusText := [], errorText := [] } []
    (by decide) (by decide) (by decide)

/-- C9: the List transform is not idempotent on every path: on
`storage/storage/a.pdf` the first application strips one marker
(fileName `storage/a.pdf`) and a second application strips another
(fileName `a.pdf`), so applying the transform twice differs from
applying it once. -/
theorem C9_counterexample :
    transformDoc ((transformDoc "storage/storage/a.pdf".data).fileName) ≠
      transformDoc "storage/storage/a.pdf".data := by
  decide

/-- C9 (amended): the List transform is idempotent on every path whose
remainder after stripping one leading `storage/` marker does not itself
begin with `storage/`; paths with repeated markers lose one marker per
application instead. -/
theorem C9_amended (p : Str)
    (h : storageMarker.isPrefixOf (stripStorage p) = false) :
    transformDoc ((transformDoc p).fileName) = transformDoc p := by
  have hs : stripStorage (stripStorage p) = stripStorage p := by
    rw [stripStorage, h]
    simp
  simp [transformDoc, hs]

/-- C9 witness: idempotence at the singly-prefixed path
`storage/report.pdf`. -/
theorem C9_amended_witness :
    (storageMarker.isPrefixOf (stripStorage "storage/report.pdf".data) = false) ∧
    transformDoc ((transformDoc "storage/report.pdf".data).fileName) =
      transformDoc "storage/report.pdf".data :=
  ⟨by decide, C9_amended "storage/report.pdf".data (by decide)⟩

/-- A list is a prefix of itself followed by anything. -/
theorem isPrefixOf_append_self (l x : Str) : l.isPrefixOf (l ++ x) = true := by
  induction l with
  | nil => simp [List.isPrefixOf]
  | cons a t ih => simp [List.isPrefixOf, ih]

/-- C5: the submitted names do not always carry exactly one `storage/`
marker: a name already starting with `storage/` is left unchanged, so
`storage/storage/a.pdf` is submitted as is and — after removing its
first marker — still begins with `storage/`, that is, it carries two. -/
theorem C5_counterexample :
    formatDocName "storage/storage/a.pdf".data = "storage/storage/a.pdf".data ∧
    storageMarker.isPrefixOf (("storage/storage/a.pdf".data).drop 8) = true ∧
    (DELETE (some "k".data) (some "kb1".data) (some ["storage/storage/a.pdf".data])
        { status := 200, statusText := [], errorText := [] } []).2 =
      [RemoteCall.deleteDocs "kb1".data ["storage/storage/a.pdf".data]] := by
  decide

/-- C5 (amended): every submitted name carries at least one leading
`storage/` marker: names without the marker get it prepended and names
already starting with it are submitted unchanged (so a name with
repeated markers keeps them all); the delete call's body is exactly the
input names so normalized. -/
theorem C5_amended :
    (∀ doc : Str, storageMarker.isPrefixOf (formatDocName doc) = true) ∧
    (∀ doc : Str, storageMarker.isPrefixOf doc = true → formatDocName doc = doc) ∧
    (∀ doc : Str, storageMarker.isPrefixOf doc = false →
        formatDocName doc = storageMarker ++ doc) ∧
    (∀ (k r : Str) (docs : List Str) (remote : DeleteRemote) (now : Str),
        k.isEmpty = false → r.isEmpty = false → docs.isEmpty = false →
        (DELETE (some k) (some r) (some docs) remote now).2 =
          [RemoteCall.deleteDocs r (docs.map formatDocName)]) := by
  refine ⟨?_, ?_, ?_, ?_⟩
  · intro doc
    cases h : storageMarker.isPrefixOf doc with
    | true => simp [formatDocName, h]
    | false => simp [formatDocName, h, isPrefixOf_append_self]
  · intro doc h
    simp [formatDocName, h]
  · intro doc h
    simp [formatDocName, h]
  · intro k r docs remote now hk hr hd
    cases hst : statusOk remote.status <;>
      simp [DELETE, falsyStr, hk, hr, hd, hst]

/-- C5 witness: the amended normalization at a bare name and at the
concrete delete request of the spec's example. -/
theorem C5_amended_witness :
    (storageMarker.isPrefixOf "a.pdf".data = false) ∧
    formatDocName "a.pdf".data = storageMarker ++ "a.pdf".data :=
  ⟨by decide, C5_amended.2.2.1 "a.pdf".data (by decide)⟩

/-- C8: not every successful List response carries ragId and timestamp:
the 404-normalized response is `{success := true, documents := []}` with
neither a ragId nor a timestamp field. -/
theorem C8_counterexample :
    (GET (some "k".data) (some "kb1".data)
      { status := 404, statusText := [], errorText := [], body := ListBody.notArr }
      "2024-01-01".data).1.success = true ∧
    (GET (some "k".data) (some "kb1".data)
      { status := 404, statusText := [], errorText := [], body := ListBody.notArr }
      "2024-01-01".data).1.ragId = none ∧
    (GET (some "k".data) (some "kb1".data)
      { status := 404, statusText := [], errorText := [], body := ListBody.notArr }
      "2024-01-01".data).1.timestamp = none := by
  decide

/-- C8 (amended): a List response built from a 2xx remote listing has the
full shape `{success, documents, ragId, timestamp}`; the 404-normalized
response instead carries only `{success := true, documents := []}`,
without ragId or timestamp. -/
theorem C8_amended (k r : Str) (remote : ListRemote) (now : Str)
    (hk : k.isEmpty = false) (hr : r.isEmpty = false) :
    (statusOk remote.status = true →
      ∃ docs, (GET (some k) (some r) remote now).1 =
        { status := 200, success := true, documents := some docs,
          ragId := some r, timestamp := some now }) ∧
    (remote.status = 404 →
      (GET (some k) (some r) remote now).1 =
        { status := 200, success := true, documents := some [] }) := by
  constructor
  · intro hok
    cases hb : remote.body with
    | arr paths =>
      exact ⟨paths.map transformDoc, by simp [GET, falsyStr, hk, hr, hok, hb]⟩
    | notArr =>
      exact ⟨[], by simp [GET, falsyStr, hk, hr, hok, hb]⟩
  · intro h404
    simp [GET, falsyStr, hk, hr, h404, statusOk]

/-- C8 witness: the amended shape at a concrete 2xx listing. -/
theorem C8_amended_witness :
    ∃ docs, (GET (some "k".data) (some "kb1".data)
      { status := 200, statusText := [], errorText := [],
        body := ListBody.arr ["notes.txt".data] } "t".data).1 =
      { status := 200, success := true, documents := some docs,
        ragId := some "kb1".data, timestamp := some "t".data } :=
  (C8_amended "k".data "kb1".data
      { status := 200, statusText := [], errorText := [],
        body := ListBody.arr ["notes.txt".data] } "t".data
      (by decide) (by decide)).1 (by decide)

/-- C6: a failing parse call does not get its status forwarded: with the
remote parse endpoint answering 422, the proxy's response status is the
fixed 500, not 422. -/
theorem C6_counterexample :
    ((POST (some "k".data) (some { name := "a.txt".data, type := "text/plain".data })
        (some "kb1".data)
        { status := 422, statusText := "Unprocessable Entity".data,
          errorText := "bad".data, documents := none }
        { status := 200, statusText := [], errorText := [] } []).1.status = 500) ∧
    (422 : Nat) ≠ 500 := by
  decide

/-- C6 (amended): error responses all have the shape
`{success := false, error, details}`, but only the listing and delete
calls forward the remote's status code (the listing call aside from its
404 normalization); failing parse and train calls inside UploadAndTrain
both produce the fixed status 500 instead. -/
theorem C6_amended :
    (∀ (k r now : Str) (remote : ListRemote),
      k.isEmpty = false → r.isEmpty = false →
      statusOk remote.status = false → remote.status ≠ 404 →
      (GET (some k) (some r) remote now).1 =
        { status := remote.status, success := false,
          error := some ("Failed to fetch documents: ".data ++ remote.statusText),
          details := some remote.errorText }) ∧
    (∀ (k r now : Str) (docs : List Str) (remote : DeleteRemote),
      k.isEmpty = false → r.isEmpty = false → docs.isEmpty = false →
      statusOk remote.status = false →
      (DELETE (some k) (some r) (some docs) remote now).1 =
        { status := remote.status, success := false,
          error := some ("Failed to delete documents: ".data ++ remote.statusText),
          details := some remote.errorText }) ∧
    (∀ (k r now : Str) (f : UploadFile) (cfg : FileType × Str)
        (pr : ParseRemote) (tr : TrainRemote),
      k.isEmpty = false → r.isEmpty = false →
      FILE_TYPE_CONFIG f.type = some cfg → statusOk pr.status = false →
      (POST (some k) (some f) (some r) pr tr now).1 =
        { status := 500, success := false,
          error := some ("Document parsing failed: ".data ++ pr.statusText),
          details := some pr.errorText }) ∧
    (∀ (k r now : Str) (f : UploadFile) (cfg : FileType × Str)
        (pr : ParseRemote) (tr : TrainRemote) (docs : List Str),
      k.isEmpty = false → r.isEmpty = false →
      FILE_TYPE_CONFIG f.type = some cfg → statusOk pr.status = true →
      pr.documents = some docs → statusOk tr.status = false →
      (POST (some k) (some f) (some r) pr tr now).1 =
        { status := 500, success := false,
          error := some ("Knowledge base training failed: ".data ++ tr.statusText),
          details := some tr.errorText }) := by
  refine ⟨?_, ?_, ?_, ?_⟩
  · intro k r now remote hk hr hbad hne
    simp [GET, falsyStr, hk, hr, hbad, hne]
  · intro k r now docs remote hk hr hd hbad
    simp [DELETE, falsyStr, hk, hr, hd, hbad]
  · intro k r now f cfg pr tr hk hr hcfg hbad
    obtain ⟨t, p⟩ := cfg
    simp [POST, postAfterParse, falsyStr, hk, hr, hcfg, hbad]
  · intro k r now f cfg pr tr docs hk hr hcfg hok hdocs hbad
    obtain ⟨t, p⟩ := cfg
    simp [POST, postAfterParse, falsyStr, hk, hr, hcfg, hok, hdocs, hbad]

/-- C6 witness: a 503 from the remote listing is forwarded as the proxy's
own status. -/
theorem C6_amended_witness :
    (GET (some "k".data) (some "kb1".data)
      { status := 503, statusText := "Service Unavailable".data,
        errorText := "down".data, body := ListBody.notArr } []).1 =
      { status := 503, success := false,
        error := some ("Failed to fetch documents: ".data ++ "Service Unavailable".data),
        details := some "down".data } :=
  C6_amended.1 "k".data "kb1".data []
    { status := 503, statusText := "Service Unavailable".data,
      errorText := "down".data, body := ListBody.notArr }
    (by decide) (by decide) (by decide) (by decide)

/-- C10: a 2xx listing whose JSON body is not an array is normalized by
List to the success response with an empty documents list, while
UploadAndTrain treats a 2xx parse response without a list field
`documents` as a processing error: status 500 and no train call. -/
theorem C10_list_vs_post (k r now : Str) (lremote : ListRemote) (f : UploadFile)
    (cfg : FileType × Str) (pr : ParseRemote) (tr : TrainRemote)
    (hk : k.isEmpty = false) (hr : r.isEmpty = false)
    (hlok : statusOk lremote.status = true) (hbody : lremote.body = ListBody.notArr)
    (hcfg : FILE_TYPE_CONFIG f.type = some cfg)
    (hpok : statusOk pr.status = true) (hdocs : pr.documents = none) :
    (GET (some k) (some r) lremote now).1 =
      { status := 200, success := true, documents := some [],
        ragId := some r, timestamp := some now } ∧
    POST (some k) (some f) (some r) pr tr now =
      ({ status := 500, success := false,
         error := some "Invalid response format from document parsing".data },
       [RemoteCall.parse f.name cfg.1 cfg.2
         (if cfg.1 = FileType.pdf then some (1000, 100) else none)]) := by
  obtain ⟨t, p⟩ := cfg
  constructor
  · simp [GET, falsyStr, hk, hr, hlok, hbody]
  · simp [POST, postAfterParse, falsyStr, hk, hr, hcfg, hpok, hdocs]

/-- C10 witness: the divergence at concrete requests — a non-array
listing body versus a parse response with no documents field. -/
theorem C10_witness :
    (GET (some "k".data) (some "kb1".data)
      { status := 200, statusText := [], errorText := [], body := ListBody.notArr }
      "t".data).1 =
      { status := 200, success := true, documents := some [],
        ragId := some "kb1".data, timestamp := some "t".data } ∧
    POST (some "k".data) (some { name := "a.txt".data, type := "text/plain".data })
        (some "kb1".data)
        { status := 200, statusText := [], errorText := [], documents := none }
        { status := 200, statusText := [], errorText := [] } "t".data =
      ({ status := 500, success := false,
         error := some "Invalid response format from document parsing".data },
       [RemoteCall.parse "a.txt".data
          (FileType.txt, "txt_parser".data).1 (FileType.txt, "txt_parser".data).2
          (if (FileType.txt, "txt_parser".data).1 = FileType.pdf then
            some (1000, 100) else none)]) :=
  C10_list_vs_post "k".data "kb1".data "t".data
    { status := 200, statusText := [], errorText := [], body := ListBody.notArr }
    { name := "a.txt".data, type := "text/plain".data }
    (FileType.txt, "txt_parser".data)
    { status := 200, statusText := [], errorText := [], documents := none }
    { status := 200, statusText := [], errorText := [] }
    (by decide) (by decide) (by decide) rfl (by decide) (by decide) rfl

/-- C7: with the credential absent each of the three handlers returns the
identical configuration-error response — status 500, success false, an
error message — and issues no remote call at all. -/
theorem C7_missing_key :
    (∀ (ragId : Option Str) (remote : ListRemote) (now : Str),
        GET none ragId remote now = (configErrorResp, [])) ∧
    (∀ (file : Option UploadFile) (ragId : Option Str) (pr : ParseRemote)
        (tr : TrainRemote) (now : Str),
        POST none file ragId pr tr now = (configErrorResp, [])) ∧
    (∀ (ragId : Option Str) (documents : Option (List Str)) (remote : DeleteRemote)
        (now : Str),
        DELETE none ragId documents remote now = (configErrorResp, [])) ∧
    configErrorResp.status = 500 ∧ configErrorResp.success = false ∧
    configErrorResp.error.isSome = true :=
  ⟨fun _ _ _ => rfl, fun _ _ _ _ _ => rfl, fun _ _ _ _ => rfl, rfl, rfl, rfl⟩
